import Mathlib

/-!
Verification of the `jupiter-swap-api-client` request/response layer.

The HTTP façade (`src/jupiter-swap-api-client/src/lib.rs`) is embedded
shallowly: the network is an oracle `net : HttpRequest → SendOutcome`,
JSON decoding of a response body is an oracle `decode : String → Option α`,
and each client operation returns its `Except ClientError` result together
with the list of HTTP requests it actually issued, so that statements about
"no network activity" or "exactly one request" are expressible.

The crate modules `quote.rs`, `swap.rs`, `route_plan_with_metadata.rs` and
`transaction_config.rs` are not part of the given sources; the data types
and conversions they define are modelled from the specification (each such
definition carries a doc comment saying so).
-/

namespace JupiterClient

/-! ## Wire-level and caller-facing data types -/

/-- Modelled from the spec: a single leg of a route plan in the
caller-facing `QuoteResponse` shape — a market identifier plus the
percentage of volume routed through it (`route_plan_with_metadata.rs` is
not among the given sources). -/
structure RoutePlanStep where
  market : String
  percent : Nat
  deriving DecidableEq, Repr

/-- Modelled from the spec: wire-level route-plan encoding with compact,
index-addressed legs — a metadata table of market identifiers plus legs
referring to it by index (`route_plan_with_metadata.rs` is not among the
given sources). -/
structure RoutePlanWithMetadata where
  markets : List String
  legs : List (Nat × Nat)
  deriving DecidableEq, Repr

/-- Modelled from the spec: caller-facing result of a quote call — input
and output amounts, price impact (kept as raw decimal text), and the
ordered route plan (`quote.rs` is not among the given sources). -/
structure QuoteResponse where
  in_amount : Nat
  out_amount : Nat
  price_impact_pct : String
  route_plan : List RoutePlanStep
  deriving DecidableEq, Repr

/-- Modelled from the spec: caller-facing quote request — input and output
asset identifiers, amount in the smallest denomination, well-known optional
tuning parameters, and the open-ended `quote_args` mapping of extra
string-keyed query arguments (`quote.rs` is not among the given sources). -/
structure QuoteRequest where
  input_mint : String
  output_mint : String
  amount : Nat
  slippage_bps : Option Nat
  fee_account : Option String
  restrict_intermediate_tokens : Option Bool
  only_direct_routes : Option Bool
  max_accounts : Option Nat
  swap_mode : Option String
  dexes : Option (List String)
  excluded_dexes : Option (List String)
  platform_fee_bps : Option Nat
  quote_args : List (String × String)
  deriving DecidableEq, Repr

/-- Comma-joining of a list of names at the character level (the wire
encoding the spec prescribes for dex lists). -/
def joinCommaChars : List (List Char) → List Char
  | [] => []
  | [x] => x
  | x :: y :: xs => x ++ ',' :: joinCommaChars (y :: xs)

/-- Splitting a character list on commas; the left inverse of
`joinCommaChars` on comma-free, non-empty lists. -/
def splitCommaChars : List Char → List (List Char)
  | [] => [[]]
  | c :: cs =>
    if c = ',' then [] :: splitCommaChars cs
    else (c :: (splitCommaChars cs).headD []) :: (splitCommaChars cs).tailD []

/-- Comma-joined string of a list of names. -/
def commaJoin (l : List String) : String :=
  ⟨joinCommaChars (l.map String.data)⟩

/-- Split a string on commas. -/
def commaSplit (s : String) : List String :=
  (splitCommaChars s.data).map String.mk

/-- Modelled from the spec: wire-shaped projection of `QuoteRequest` —
identical modeled fields, but dex lists comma-joined into single strings
suitable for query-string serialization, and without the `quote_args`
mapping (`quote.rs` is not among the given sources). -/
structure InternalQuoteRequest where
  input_mint : String
  output_mint : String
  amount : Nat
  slippage_bps : Option Nat
  fee_account : Option String
  restrict_intermediate_tokens : Option Bool
  only_direct_routes : Option Bool
  max_accounts : Option Nat
  swap_mode : Option String
  dexes : Option String
  excluded_dexes : Option String
  platform_fee_bps : Option Nat
  deriving DecidableEq, Repr

/-- Modelled from the spec: the `From<QuoteRequest>` conversion producing
the wire-shaped `InternalQuoteRequest` — pure structural renaming and
encoding, the dex lists becoming comma-joined strings (`quote.rs` is not
among the given sources). -/
def InternalQuoteRequest.from (q : QuoteRequest) : InternalQuoteRequest where
  input_mint := q.input_mint
  output_mint := q.output_mint
  amount := q.amount
  slippage_bps := q.slippage_bps
  fee_account := q.fee_account
  restrict_intermediate_tokens := q.restrict_intermediate_tokens
  only_direct_routes := q.only_direct_routes
  max_accounts := q.max_accounts
  swap_mode := q.swap_mode
  dexes := q.dexes.map commaJoin
  excluded_dexes := q.excluded_dexes.map commaJoin
  platform_fee_bps := q.platform_fee_bps

/-- Inverse shaping: rebuild a `QuoteRequest` from the wire shape and a
`quote_args` mapping, splitting the comma-joined dex strings back into
lists.  Used to state losslessness of `InternalQuoteRequest.from`. -/
def InternalQuoteRequest.toQuoteRequest (i : InternalQuoteRequest)
    (quote_args : List (String × String)) : QuoteRequest where
  input_mint := i.input_mint
  output_mint := i.output_mint
  amount := i.amount
  slippage_bps := i.slippage_bps
  fee_account := i.fee_account
  restrict_intermediate_tokens := i.restrict_intermediate_tokens
  only_direct_routes := i.only_direct_routes
  max_accounts := i.max_accounts
  swap_mode := i.swap_mode
  dexes := i.dexes.map commaSplit
  excluded_dexes := i.excluded_dexes.map commaSplit
  platform_fee_bps := i.platform_fee_bps
  quote_args := quote_args

/-! ## Swap-side data types -/

/-- Modelled from the spec: compute-unit price strategy of the transaction
configuration — none, a fixed price, or automatic with a cap
(`transaction_config.rs` is not among the given sources). -/
inductive ComputeUnitPrice where
  | noPrice : ComputeUnitPrice
  | fixed (microLamports : Nat) : ComputeUnitPrice
  | autoWithCap (cap : Nat) : ComputeUnitPrice
  deriving DecidableEq, Repr

/-- Modelled from the spec: transaction configuration — wrap/unwrap of the
native asset, auto-creation of destination token accounts, fee-payer
override, compute-unit price strategy, and an open-ended extension mapping
(`transaction_config.rs` is not among the given sources). -/
structure TransactionConfig where
  wrap_and_unwrap_sol : Bool
  auto_create_token_accounts : Bool
  fee_payer : Option String
  compute_unit_price : ComputeUnitPrice
  extensions : List (String × String)
  deriving DecidableEq, Repr

/-- Modelled from the spec: caller-facing swap request — a previously
obtained quote, the payer's public address, and the transaction
configuration (`swap.rs` is not among the given sources). -/
structure SwapRequest where
  user_public_key : String
  quote_response : QuoteResponse
  config : TransactionConfig
  deriving DecidableEq, Repr

/-- Modelled from the spec: caller-facing swap result — one opaque
transaction blob plus the last known valid execution height (`swap.rs` is
not among the given sources). -/
structure SwapResponse where
  swap_transaction : String
  last_valid_block_height : Nat
  deriving DecidableEq, Repr

/-- Modelled from the spec: one instruction in the wire-level (internal)
instruction representation (`swap.rs` is not among the given sources). -/
structure InstructionInternal where
  program_id : String
  accounts : List String
  data : String
  deriving DecidableEq, Repr

/-- Modelled from the spec: one caller-facing instruction (`swap.rs` is
not among the given sources). -/
structure Instruction where
  program_id : String
  accounts : List String
  data : String
  deriving DecidableEq, Repr

/-- Modelled from the spec: wire shape of the swap-instructions response —
an ordered instruction list plus lookup-table addresses (`swap.rs` is not
among the given sources). -/
structure SwapInstructionsResponseInternal where
  instructions : List InstructionInternal
  address_lookup_table_addresses : List String
  deriving DecidableEq, Repr

/-- Modelled from the spec: caller-facing shape of the swap-instructions
response (`swap.rs` is not among the given sources). -/
structure SwapInstructionsResponse where
  instructions : List Instruction
  address_lookup_table_addresses : List String
  deriving DecidableEq, Repr

/-- Modelled from the spec: the wire→caller-facing conversion of a single
instruction (`swap.rs` is not among the given sources). -/
def InstructionInternal.into (i : InstructionInternal) : Instruction where
  program_id := i.program_id
  accounts := i.accounts
  data := i.data

/-- Modelled from the spec: the one-directional
`SwapInstructionsResponseInternal → SwapInstructionsResponse` (`Into`)
conversion, preserving instruction order (`swap.rs` is not among the given
sources). -/
def SwapInstructionsResponseInternal.into
    (r : SwapInstructionsResponseInternal) : SwapInstructionsResponse where
  instructions := r.instructions.map InstructionInternal.into
  address_lookup_table_addresses := r.address_lookup_table_addresses

/-! ## Route-plan wire conversions -/

/-- Encode caller-facing legs as index-addressed wire legs, numbering from
`i`. -/
def encodeLegsFrom : Nat → List RoutePlanStep → List (Nat × Nat)
  | _, [] => []
  | i, s :: rest => (i, s.percent) :: encodeLegsFrom (i + 1) rest

/-- Modelled from the spec: encode the caller-facing route plan into the
compact, index-addressed wire form — a metadata table of the legs' markets
plus legs referring to the table by position. -/
def RoutePlanWithMetadata.encode (l : List RoutePlanStep) :
    RoutePlanWithMetadata where
  markets := l.map RoutePlanStep.market
  legs := encodeLegsFrom 0 l

/-- Decode index-addressed wire legs against a metadata table; fails when
a leg's index is out of the table's range. -/
def decodeLegs (markets : List String) : List (Nat × Nat) →
    Option (List RoutePlanStep)
  | [] => some []
  | (i, p) :: rest => do
    let m ← markets.get? i
    let r ← decodeLegs markets rest
    pure (⟨m, p⟩ :: r)

/-- Modelled from the spec: decode the wire route plan back into the
caller-facing leg list. -/
def RoutePlanWithMetadata.decode (w : RoutePlanWithMetadata) :
    Option (List RoutePlanStep) :=
  decodeLegs w.markets w.legs

/-! ## HTTP façade (from `src/jupiter-swap-api-client/src/lib.rs`) -/

/-- The error union of `lib.rs`:
`RequestFailed { status, body }` for a non-success HTTP status,
`DeserializationError` wrapping any `reqwest::Error` (transport or JSON
decoding; the wrapped error is modelled as its message text), and
`InvalidHeader` for an API key that is not valid header content. -/
inductive ClientError where
  | RequestFailed (status : Nat) (body : String) : ClientError
  | DeserializationError (message : String) : ClientError
  | InvalidHeader : ClientError
  deriving DecidableEq, Repr

/-- `reqwest::StatusCode::is_success`: the status lies in 200..=299. -/
def statusIsSuccess (status : Nat) : Bool :=
  200 ≤ status && status < 300

/-- An HTTP response as the client observes it: the status code and the
body text, `none` when the body cannot be read. -/
structure HttpResponse where
  status : Nat
  body : Option String
  deriving DecidableEq, Repr

/-- HTTP method of an outgoing request. -/
inductive HttpMethod where
  | get : HttpMethod
  | post : HttpMethod
  deriving DecidableEq, Repr

/-- An outgoing HTTP request as the client builds it: method, URL, the
query-parameter list in serialization order, the optional JSON body (only
swap requests are ever posted), and the header list. -/
structure HttpRequest where
  method : HttpMethod
  url : String
  query : List (String × String)
  body : Option SwapRequest
  headers : List (String × String)
  deriving DecidableEq, Repr

/-- Outcome of `send()`: a transport-layer failure (a `reqwest::Error`,
modelled as its message) or a response. -/
inductive SendOutcome where
  | sendError (message : String) : SendOutcome
  | ok (response : HttpResponse) : SendOutcome

/-- `check_is_success` of `lib.rs`: a non-success status short-circuits
with `RequestFailed`, the body read best-effort
(`text().await.unwrap_or_default()` — empty string when unreadable). -/
def check_is_success (response : HttpResponse) : Except ClientError HttpResponse :=
  if !statusIsSuccess response.status then
    .error (.RequestFailed response.status (response.body.getD ""))
  else
    .ok response

/-- `check_status_code_and_deserialize` of `lib.rs`: check the status,
then deserialize the JSON body into `α`; any failure while reading or
decoding the body becomes `DeserializationError`.  The JSON decoder is an
oracle `decode`. -/
def check_status_code_and_deserialize (decode : String → Option α)
    (response : HttpResponse) : Except ClientError α :=
  match check_is_success response with
  | .error e => .error e
  | .ok response =>
    match response.body with
    | none => .error (.DeserializationError "error reading response body")
    | some b =>
      match decode b with
      | none => .error (.DeserializationError "error decoding response body")
      | some v => .ok v

/-- `reqwest::header::HeaderValue::from_str` accepts a character iff it is
visible or space (byte ≥ 32 and ≠ 127, DEL) or horizontal tab. -/
def isValidHeaderValueChar (c : Char) : Bool :=
  (32 ≤ c.toNat && c.toNat ≠ 127) || c = '\t'

/-- A string is a valid HTTP header value iff every character is. -/
def isValidHeaderValue (s : String) : Bool :=
  s.data.all isValidHeaderValueChar

/-- The header-building step each operation performs: an empty header map,
plus — when an API key is configured — the `x-api-key` header, whose
encoding failure short-circuits with `InvalidHeader`. -/
def buildHeaders (api_key : Option String) :
    Except ClientError (List (String × String)) :=
  match api_key with
  | none => .ok []
  | some k =>
    if isValidHeaderValue k then .ok [("x-api-key", k)]
    else .error .InvalidHeader

/-- The `JupiterSwapApiClient` struct: a base path and an optional API
key. -/
structure JupiterSwapApiClient where
  base_path : String
  api_key : Option String
  deriving DecidableEq, Repr

/-- `JupiterSwapApiClient::new`: stores both configuration values as
given, with no validation. -/
def JupiterSwapApiClient.new (base_path : String) (api_key : Option String) :
    JupiterSwapApiClient :=
  { base_path := base_path, api_key := api_key }

/-- Query-string serialization of the wire-shaped quote request, in field
order; `None` optional fields are omitted.  Modelled from the spec for the
key names (`quote.rs` with its serde attributes is not among the given
sources). -/
def internalQuoteQuery (i : InternalQuoteRequest) : List (String × String) :=
  [("inputMint", i.input_mint), ("outputMint", i.output_mint),
   ("amount", toString i.amount)]
  ++ (i.slippage_bps.map fun v => ("slippageBps", toString v)).toList
  ++ (i.fee_account.map fun v => ("feeAccount", v)).toList
  ++ (i.restrict_intermediate_tokens.map
      fun v => ("restrictIntermediateTokens", toString v)).toList
  ++ (i.only_direct_routes.map fun v => ("onlyDirectRoutes", toString v)).toList
  ++ (i.max_accounts.map fun v => ("maxAccounts", toString v)).toList
  ++ (i.swap_mode.map fun v => ("swapMode", v)).toList
  ++ (i.dexes.map fun v => ("dexes", v)).toList
  ++ (i.excluded_dexes.map fun v => ("excludedDexes", v)).toList
  ++ (i.platform_fee_bps.map fun v => ("platformFeeBps", toString v)).toList

/-- `JupiterSwapApiClient::quote`: build `{base}/quote`, clone the
request's `quote_args`, shape the internal request, build headers
(short-circuiting with `InvalidHeader`), issue one GET whose query is the
shaped fields followed by the extra arguments, then check the status and
deserialize.  Returns the result together with the list of requests
actually issued. -/
def JupiterSwapApiClient.quote (c : JupiterSwapApiClient)
    (quote_request : QuoteRequest) (net : HttpRequest → SendOutcome)
    (decode : String → Option QuoteResponse) :
    Except ClientError QuoteResponse × List HttpRequest :=
  let url := c.base_path ++ "/quote"
  let extra_args := quote_request.quote_args
  let internal_quote_request := InternalQuoteRequest.from quote_request
  match buildHeaders c.api_key with
  | .error e => (.error e, [])
  | .ok headers =>
    let req : HttpRequest :=
      { method := .get, url := url,
        query := internalQuoteQuery internal_quote_request ++ extra_args,
        body := none, headers := headers }
    match net req with
    | .sendError m => (.error (.DeserializationError m), [req])
    | .ok response => (check_status_code_and_deserialize decode response, [req])

/-- `JupiterSwapApiClient::swap`: build headers (short-circuiting with
`InvalidHeader`), issue one POST to `{base}/swap` with the caller-supplied
`extra_args` as query parameters and the JSON-encoded swap request as
body, then check the status and deserialize. -/
def JupiterSwapApiClient.swap (c : JupiterSwapApiClient)
    (swap_request : SwapRequest) (extra_args : Option (List (String × String)))
    (net : HttpRequest → SendOutcome)
    (decode : String → Option SwapResponse) :
    Except ClientError SwapResponse × List HttpRequest :=
  match buildHeaders c.api_key with
  | .error e => (.error e, [])
  | .ok headers =>
    let req : HttpRequest :=
      { method := .post, url := c.base_path ++ "/swap",
        query := extra_args.getD [], body := some swap_request,
        headers := headers }
    match net req with
    | .sendError m => (.error (.DeserializationError m), [req])
    | .ok response => (check_status_code_and_deserialize decode response, [req])

/-- `JupiterSwapApiClient::swap_instructions`: build headers
(short-circuiting with `InvalidHeader`), issue one POST to
`{base}/swap-instructions` with the JSON-encoded swap request as body and
no query parameters, check the status, deserialize into the wire shape,
and apply the wire→caller-facing conversion. -/
def JupiterSwapApiClient.swap_instructions (c : JupiterSwapApiClient)
    (swap_request : SwapRequest) (net : HttpRequest → SendOutcome)
    (decode : String → Option SwapInstructionsResponseInternal) :
    Except ClientError SwapInstructionsResponse × List HttpRequest :=
  match buildHeaders c.api_key with
  | .error e => (.error e, [])
  | .ok headers =>
    let req : HttpRequest :=
      { method := .post, url := c.base_path ++ "/swap-instructions",
        query := [], body := some swap_request, headers := headers }
    match net req with
    | .sendError m => (.error (.DeserializationError m), [req])
    | .ok response =>
      (match check_status_code_and_deserialize decode response with
       | .error e => .error e
       | .ok internal => .ok internal.into, [req])

/-- Validity of an optional dex list for lossless comma-joining: when
present, the list is non-empty and no name contains a comma. -/
def dexListOk (o : Option (List String)) : Bool :=
  match o with
  | none => true
  | some l => (!l.isEmpty) && l.all fun s => s.data.all fun c => c ≠ ','

/-! ## Lemmas: comma join/split round trip -/

theorem splitCommaChars_ne_nil (t : List Char) : splitCommaChars t ≠ [] := by
  cases t with
  | nil => simp [splitCommaChars]
  | cons c cs =>
    simp only [splitCommaChars]
    split <;> simp

theorem splitCommaChars_append (x t : List Char) (hx : ',' ∉ x) :
    splitCommaChars (x ++ t) =
      (x ++ (splitCommaChars t).headD []) :: (splitCommaChars t).tailD [] := by
  induction x with
  | nil =>
    simp only [List.nil_append]
    cases h : splitCommaChars t with
    | nil => exact absurd h (splitCommaChars_ne_nil t)
    | cons a l => simp
  | cons c x ih =>
    have hc : c ≠ ',' := fun h => hx (h ▸ List.mem_cons_self c x)
    have hx' : ',' ∉ x := fun h => hx (List.mem_cons_of_mem _ h)
    simp only [List.cons_append, splitCommaChars, if_neg hc, List.append_eq]
    rw [ih hx']
    simp

theorem splitCommaChars_joinCommaChars (l : List (List Char)) (hne : l ≠ [])
    (hc : ∀ x ∈ l, ',' ∉ x) :
    splitCommaChars (joinCommaChars l) = l := by
  induction l with
  | nil => exact absurd rfl hne
  | cons x xs ih =>
    cases xs with
    | nil =>
      have hx : ',' ∉ x := hc x (List.mem_cons_self x [])
      have h := splitCommaChars_append x [] hx
      simpa [joinCommaChars, splitCommaChars] using h
    | cons y ys =>
      have hx : ',' ∉ x := hc x (by simp)
      have hrest : ∀ z ∈ y :: ys, ',' ∉ z := fun z hz => hc z (by simp [hz])
      have hJ := ih (by simp) hrest
      have h := splitCommaChars_append x (',' :: joinCommaChars (y :: ys)) hx
      simp only [joinCommaChars]
      rw [h]
      simp only [splitCommaChars, if_pos rfl, hJ]
      simp

theorem commaSplit_commaJoin (l : List String) (hne : l ≠ [])
    (hc : ∀ s ∈ l, ',' ∉ s.data) :
    commaSplit (commaJoin l) = l := by
  unfold commaSplit commaJoin
  have h1 : (String.mk (joinCommaChars (l.map String.data))).data
      = joinCommaChars (l.map String.data) := rfl
  rw [h1, splitCommaChars_joinCommaChars (l.map String.data) (by simpa using hne)
    (by intro x hx; obtain ⟨s, hs, rfl⟩ := List.mem_map.mp hx; exact hc s hs)]
  have h2 : (String.mk ∘ String.data) = id := funext fun s => rfl
  rw [List.map_map, h2, List.map_id]

theorem dexListOk_roundtrip (o : Option (List String)) (ho : dexListOk o = true) :
    Option.map commaSplit (Option.map commaJoin o) = o := by
  cases o with
  | none => rfl
  | some l =>
    simp only [dexListOk, Bool.and_eq_true, List.all_eq_true,
      Bool.not_eq_true'] at ho
    obtain ⟨hne, hall⟩ := ho
    have hne' : l ≠ [] := by cases l <;> simp_all
    simp only [Option.map_some']
    rw [commaSplit_commaJoin l hne']
    intro s hs hmem
    have h := hall s hs ',' hmem
    simp at h

/-! ## Lemmas: route-plan wire encoding -/

theorem encodeLegsFrom_length (i : Nat) (l : List RoutePlanStep) :
    (encodeLegsFrom i l).length = l.length := by
  induction l generalizing i with
  | nil => rfl
  | cons s rest ih => simp [encodeLegsFrom, ih]

theorem encodeLegsFrom_map_snd (i : Nat) (l : List RoutePlanStep) :
    (encodeLegsFrom i l).map Prod.snd = l.map RoutePlanStep.percent := by
  induction l generalizing i with
  | nil => rfl
  | cons s rest ih => simp [encodeLegsFrom, ih]

theorem decodeLegs_encodeLegsFrom (l : List RoutePlanStep) (pre : List String) :
    decodeLegs (pre ++ l.map RoutePlanStep.market) (encodeLegsFrom pre.length l)
      = some l := by
  induction l generalizing pre with
  | nil => simp [encodeLegsFrom, decodeLegs]
  | cons s rest ih =>
    have hget : (pre ++ s.market :: rest.map RoutePlanStep.market).get? pre.length
        = some s.market := by
      rw [List.get?_eq_getElem?, List.getElem?_append_right (Nat.le_refl _)]
      simp
    have ih' := ih (pre ++ [s.market])
    rw [List.append_assoc] at ih'
    simp only [List.singleton_append, List.length_append, List.length_singleton] at ih'
    simp only [List.map_cons, encodeLegsFrom, decodeLegs, hget, Option.some_bind]
    rw [ih']
    rfl

theorem decodeLegs_shape (ms : List String) (legs : List (Nat × Nat))
    (l : List RoutePlanStep) (h : decodeLegs ms legs = some l) :
    l.length = legs.length ∧
      l.map RoutePlanStep.percent = legs.map Prod.snd := by
  induction legs generalizing l with
  | nil =>
    simp only [decodeLegs, Option.some.injEq] at h
    subst h
    simp
  | cons ip rest ih =>
    obtain ⟨i, p⟩ := ip
    cases hm : ms[i]? with
    | none => simp [decodeLegs, List.get?_eq_getElem?, hm] at h
    | some m =>
      cases hr : decodeLegs ms rest with
      | none => simp [decodeLegs, List.get?_eq_getElem?, hm, hr] at h
      | some r =>
        simp [decodeLegs, List.get?_eq_getElem?, hm, hr] at h
        subst h
        obtain ⟨h1, h2⟩ := ih r hr
        simp [h1, h2]

/-! ## Concrete fixtures used by witness theorems -/

/-- A concrete quote request exercising modeled fields, a dex list and an
unmodeled `quote_args` entry. -/
def exampleQuoteRequest : QuoteRequest where
  input_mint := "So11111111111111111111111111111111111111112"
  output_mint := "EPjFWdd5AufqSSqeM2qN1xzybapC8G4wEGGkZwyTDt1v"
  amount := 1000000
  slippage_bps := some 50
  fee_account := none
  restrict_intermediate_tokens := none
  only_direct_routes := some true
  max_accounts := none
  swap_mode := none
  dexes := some ["Orca", "Raydium"]
  excluded_dexes := none
  platform_fee_bps := none
  quote_args := [("extraKey", "extraValue")]

/-- A concrete quote response with a one-leg route plan. -/
def exampleQuoteResponse : QuoteResponse where
  in_amount := 1000000
  out_amount := 995000
  price_impact_pct := "0.01"
  route_plan := [{ market := "Orca", percent := 100 }]

/-- A concrete transaction configuration with an unmodeled extension. -/
def exampleTransactionConfig : TransactionConfig where
  wrap_and_unwrap_sol := true
  auto_create_token_accounts := true
  fee_payer := none
  compute_unit_price := .noPrice
  extensions := [("dynamicComputeUnitLimit", "true")]

/-- A concrete swap request. -/
def exampleSwapRequest : SwapRequest where
  user_public_key := "4Nd1mnszWRVFzzsxMuqRbjzEYoUDTXg5VMSD3JUPV2hV"
  quote_response := exampleQuoteResponse
  config := exampleTransactionConfig

/-- A client with no API key configured. -/
def exampleClient : JupiterSwapApiClient :=
  JupiterSwapApiClient.new "https://quote-api.jup.ag/v6" none

/-! ## Claim theorems -/

/-- C1: for every call to quote, swap, or swap_instructions in which the
remote endpoint responds with a non-success HTTP status, the operation
returns `RequestFailed` whose status is that status and whose body is the
raw response text — the empty string when the body cannot be read, body
reading itself never being an error. -/
theorem claim_C1_non_success_status_yields_RequestFailed
    (c : JupiterSwapApiClient) (hs : List (String × String))
    (hok : buildHeaders c.api_key = .ok hs)
    (resp : HttpResponse) (hfail : statusIsSuccess resp.status = false)
    (qr : QuoteRequest) (sr : SwapRequest)
    (extra : Option (List (String × String)))
    (decQ : String → Option QuoteResponse)
    (decS : String → Option SwapResponse)
    (decI : String → Option SwapInstructionsResponseInternal) :
    (c.quote qr (fun _ => .ok resp) decQ).1
        = .error (.RequestFailed resp.status (resp.body.getD "")) ∧
    (c.swap sr extra (fun _ => .ok resp) decS).1
        = .error (.RequestFailed resp.status (resp.body.getD "")) ∧
    (c.swap_instructions sr (fun _ => .ok resp) decI).1
        = .error (.RequestFailed resp.status (resp.body.getD "")) ∧
    (resp.body = none → resp.body.getD "" = "") := by
  have hcheck : ∀ (α : Type) (dec : String → Option α),
      check_status_code_and_deserialize dec resp
        = .error (.RequestFailed resp.status (resp.body.getD "")) := by
    intro α dec
    simp [check_status_code_and_deserialize, check_is_success, hfail]
  refine ⟨?_, ?_, ?_, fun h => by simp [h]⟩
  · simp [JupiterSwapApiClient.quote, hok, hcheck]
  · simp [JupiterSwapApiClient.swap, hok, hcheck]
  · simp [JupiterSwapApiClient.swap_instructions, hok, hcheck]

/-- Witness for C1: a stubbed remote returning HTTP 400 with body
"insufficient liquidity" makes `quote` fail with exactly that
`RequestFailed`. -/
theorem claim_C1_witness :
    (exampleClient.quote exampleQuoteRequest
        (fun _ => .ok ⟨400, some "insufficient liquidity"⟩) (fun _ => none)).1
      = .error (.RequestFailed 400 "insufficient liquidity") := by
  have h := claim_C1_non_success_status_yields_RequestFailed exampleClient []
    (by rfl) ⟨400, some "insufficient liquidity"⟩ (by decide)
    exampleQuoteRequest exampleSwapRequest none
    (fun _ => none) (fun _ => none) (fun _ => none)
  exact h.1

/-- C2: for every call to quote, swap, or swap_instructions, a
transport-layer failure, and a JSON-decoding failure of a success
response, are returned as the `DeserializationError` variant; every such
call returns (no panic is modelled — the embedding is total). -/
theorem claim_C2_failures_become_DeserializationError
    (c : JupiterSwapApiClient) (hs : List (String × String))
    (hok : buildHeaders c.api_key = .ok hs)
    (m : String) (resp : HttpResponse)
    (hst : statusIsSuccess resp.status = true)
    (qr : QuoteRequest) (sr : SwapRequest)
    (extra : Option (List (String × String)))
    (decQ : String → Option QuoteResponse)
    (decS : String → Option SwapResponse)
    (decI : String → Option SwapInstructionsResponseInternal) :
    (c.quote qr (fun _ => .sendError m) decQ).1
        = .error (.DeserializationError m) ∧
    (c.swap sr extra (fun _ => .sendError m) decS).1
        = .error (.DeserializationError m) ∧
    (c.swap_instructions sr (fun _ => .sendError m) decI).1
        = .error (.DeserializationError m) ∧
    ((∀ b, resp.body = some b → decQ b = none) →
      ∃ e, (c.quote qr (fun _ => .ok resp) decQ).1
        = .error (.DeserializationError e)) ∧
    ((∀ b, resp.body = some b → decS b = none) →
      ∃ e, (c.swap sr extra (fun _ => .ok resp) decS).1
        = .error (.DeserializationError e)) ∧
    ((∀ b, resp.body = some b → decI b = none) →
      ∃ e, (c.swap_instructions sr (fun _ => .ok resp) decI).1
        = .error (.DeserializationError e)) := by
  have hcheck : ∀ (α : Type) (dec : String → Option α),
      (∀ b, resp.body = some b → dec b = none) →
      ∃ e, check_status_code_and_deserialize dec resp
        = .error (.DeserializationError e) := by
    intro α dec hd
    cases hb : resp.body with
    | none =>
      exact ⟨"error reading response body",
        by simp [check_status_code_and_deserialize, check_is_success, hst, hb]⟩
    | some b =>
      exact ⟨"error decoding response body",
        by simp [check_status_code_and_deserialize, check_is_success, hst, hb,
          hd b hb]⟩
  refine ⟨?_, ?_, ?_, ?_, ?_, ?_⟩
  · simp [JupiterSwapApiClient.quote, hok]
  · simp [JupiterSwapApiClient.swap, hok]
  · simp [JupiterSwapApiClient.swap_instructions, hok]
  · intro hd
    obtain ⟨e, he⟩ := hcheck _ decQ hd
    exact ⟨e, by simp [JupiterSwapApiClient.quote, hok, he]⟩
  · intro hd
    obtain ⟨e, he⟩ := hcheck _ decS hd
    exact ⟨e, by simp [JupiterSwapApiClient.swap, hok, he]⟩
  · intro hd
    obtain ⟨e, he⟩ := hcheck _ decI hd
    exact ⟨e, by simp [JupiterSwapApiClient.swap_instructions, hok, he]⟩

/-- Witness for C2: a connection failure surfaces as
`DeserializationError`, and an HTTP 200 response whose body is not valid
JSON (every decode fails) also surfaces as `DeserializationError`. -/
theorem claim_C2_witness :
    (exampleClient.quote exampleQuoteRequest
        (fun _ => .sendError "connection refused") (fun _ => none)).1
      = .error (.DeserializationError "connection refused") ∧
    (∃ e, (exampleClient.quote exampleQuoteRequest
        (fun _ => .ok ⟨200, some "this is not json"⟩) (fun _ => none)).1
      = .error (.DeserializationError e)) := by
  have h := claim_C2_failures_become_DeserializationError exampleClient []
    (by rfl) "connection refused" ⟨200, some "this is not json"⟩ (by decide)
    exampleQuoteRequest exampleSwapRequest none
    (fun _ => none) (fun _ => none) (fun _ => none)
  exact ⟨h.1, h.2.2.2.1 (fun b _ => rfl)⟩

/-- An invalid configured API key makes `buildHeaders` fail with
`InvalidHeader`. -/
theorem buildHeaders_invalid (c : JupiterSwapApiClient) (k : String)
    (hk : c.api_key = some k) (hbad : isValidHeaderValue k = false) :
    buildHeaders c.api_key = .error .InvalidHeader := by
  simp [buildHeaders, hk, hbad]

/-- When header building fails, `quote` returns that error and issues no
request. -/
theorem quote_header_error (c : JupiterSwapApiClient) (e : ClientError)
    (hb : buildHeaders c.api_key = .error e) (qr : QuoteRequest)
    (net : HttpRequest → SendOutcome) (decQ : String → Option QuoteResponse) :
    c.quote qr net decQ = (.error e, []) := by
  simp [JupiterSwapApiClient.quote, hb]

/-- When header building fails, `swap` returns that error and issues no
request. -/
theorem swap_header_error (c : JupiterSwapApiClient) (e : ClientError)
    (hb : buildHeaders c.api_key = .error e) (sr : SwapRequest)
    (extra : Option (List (String × String)))
    (net : HttpRequest → SendOutcome) (decS : String → Option SwapResponse) :
    c.swap sr extra net decS = (.error e, []) := by
  simp [JupiterSwapApiClient.swap, hb]

/-- When header building fails, `swap_instructions` returns that error and
issues no request. -/
theorem swap_instructions_header_error (c : JupiterSwapApiClient)
    (e : ClientError) (hb : buildHeaders c.api_key = .error e)
    (sr : SwapRequest) (net : HttpRequest → SendOutcome)
    (decI : String → Option SwapInstructionsResponseInternal) :
    c.swap_instructions sr net decI = (.error e, []) := by
  simp [JupiterSwapApiClient.swap_instructions, hb]

/-- C3: for every client whose configured API key is not a valid HTTP
header value, each operation returns `InvalidHeader` and issues no HTTP
request at all (the request trace is empty). -/
theorem claim_C3_invalid_api_key_short_circuits
    (c : JupiterSwapApiClient) (k : String)
    (hk : c.api_key = some k) (hbad : isValidHeaderValue k = false)
    (qr : QuoteRequest) (sr : SwapRequest)
    (extra : Option (List (String × String)))
    (net : HttpRequest → SendOutcome)
    (decQ : String → Option QuoteResponse)
    (decS : String → Option SwapResponse)
    (decI : String → Option SwapInstructionsResponseInternal) :
    c.quote qr net decQ = (.error .InvalidHeader, []) ∧
    c.swap sr extra net decS = (.error .InvalidHeader, []) ∧
    c.swap_instructions sr net decI = (.error .InvalidHeader, []) := by
  have hb := buildHeaders_invalid c k hk hbad
  exact ⟨quote_header_error c _ hb qr net decQ,
    swap_header_error c _ hb sr extra net decS,
    swap_instructions_header_error c _ hb sr net decI⟩

/-- Witness for C3: an API key containing a newline makes `quote` fail
with `InvalidHeader` while sending nothing. -/
theorem claim_C3_witness :
    (JupiterSwapApiClient.new "https://quote-api.jup.ag/v6"
        (some "bad\nkey")).quote exampleQuoteRequest
        (fun _ => .ok ⟨200, some "{}"⟩) (fun _ => none)
      = (.error .InvalidHeader, []) := by
  have h := claim_C3_invalid_api_key_short_circuits
    (JupiterSwapApiClient.new "https://quote-api.jup.ag/v6" (some "bad\nkey"))
    "bad\nkey" (by rfl) (by decide) exampleQuoteRequest exampleSwapRequest none
    (fun _ => .ok ⟨200, some "{}"⟩) (fun _ => none) (fun _ => none)
    (fun _ => none)
  exact h.1

/-- C4: for every `QuoteRequest` (whose dex lists, when present, are
non-empty with comma-free names, as the comma-joined wire encoding
requires), shaping into `InternalQuoteRequest` is total and lossless:
every modeled field maps to exactly one wire field and the original
request is recovered exactly, unmodeled parameters travelling only through
the separate `quote_args` mapping. -/
theorem claim_C4_quote_shaping_total_lossless (q : QuoteRequest)
    (h1 : dexListOk q.dexes = true) (h2 : dexListOk q.excluded_dexes = true) :
    (InternalQuoteRequest.from q).toQuoteRequest q.quote_args = q := by
  have hd := dexListOk_roundtrip q.dexes h1
  have he := dexListOk_roundtrip q.excluded_dexes h2
  cases q
  simp only [InternalQuoteRequest.from, InternalQuoteRequest.toQuoteRequest] at *
  simp_all

/-- Witness for C4: the shaping of a concrete request with a two-dex list
and an unmodeled extra argument loses nothing. -/
theorem claim_C4_witness :
    (InternalQuoteRequest.from exampleQuoteRequest).toQuoteRequest
        exampleQuoteRequest.quote_args = exampleQuoteRequest :=
  claim_C4_quote_shaping_total_lossless exampleQuoteRequest (by rfl) (by rfl)

/-- A quote request whose single dex name contains a comma — the one kind
of value the comma-joined wire encoding cannot represent losslessly. -/
def commaDexQuoteRequest : QuoteRequest where
  input_mint := "So11111111111111111111111111111111111111112"
  output_mint := "EPjFWdd5AufqSSqeM2qN1xzybapC8G4wEGGkZwyTDt1v"
  amount := 5
  slippage_bps := none
  fee_account := none
  restrict_intermediate_tokens := none
  only_direct_routes := none
  max_accounts := none
  swap_mode := none
  dexes := some ["Orca,Raydium"]
  excluded_dexes := none
  platform_fee_bps := none
  quote_args := []

/-- Counterexample to C4 as stated for every value: a dex name containing
a comma is comma-joined into the same wire string as two separate names,
so shaping that request is not lossless. -/
theorem claim_C4_counterexample :
    (InternalQuoteRequest.from commaDexQuoteRequest).toQuoteRequest
        commaDexQuoteRequest.quote_args ≠ commaDexQuoteRequest := by
  decide

/-- C6: encoding caller-facing route-plan legs to the wire form and
decoding back is the identity, and for any wire value that decodes, the
decoded legs preserve leg count, per-leg percentage and leg order of the
wire legs, and re-encode to a value that decodes back to them. -/
theorem claim_C6_route_plan_roundtrip
    (l : List RoutePlanStep) (w : RoutePlanWithMetadata)
    (l' : List RoutePlanStep) (h : w.decode = some l') :
    (RoutePlanWithMetadata.encode l).decode = some l ∧
    (RoutePlanWithMetadata.encode l).legs.length = l.length ∧
    (RoutePlanWithMetadata.encode l).legs.map Prod.snd
      = l.map RoutePlanStep.percent ∧
    l'.length = w.legs.length ∧
    l'.map RoutePlanStep.percent = w.legs.map Prod.snd ∧
    (RoutePlanWithMetadata.encode l').decode = some l' := by
  have henc : ∀ t : List RoutePlanStep,
      (RoutePlanWithMetadata.encode t).decode = some t := by
    intro t
    have h0 := decodeLegs_encodeLegsFrom t []
    simpa [RoutePlanWithMetadata.encode, RoutePlanWithMetadata.decode] using h0
  obtain ⟨hl, hp⟩ := decodeLegs_shape w.markets w.legs l' h
  exact ⟨henc l,
    by simp [RoutePlanWithMetadata.encode, encodeLegsFrom_length],
    by simp [RoutePlanWithMetadata.encode, encodeLegsFrom_map_snd],
    hl, hp, henc l'⟩

/-- Witness for C6: a concrete two-leg route plan round-trips through the
wire encoding, and a concrete wire value decodes preserving count,
percentage and order. -/
theorem claim_C6_witness :
    (RoutePlanWithMetadata.encode
        [{ market := "Orca", percent := 40 },
         { market := "Raydium", percent := 60 }]).decode
      = some [{ market := "Orca", percent := 40 },
              { market := "Raydium", percent := 60 }] ∧
    ([{ market := "Meteora", percent := 100 }] : List RoutePlanStep).length
      = (RoutePlanWithMetadata.mk ["Meteora"] [(0, 100)]).legs.length := by
  have h := claim_C6_route_plan_roundtrip
    [{ market := "Orca", percent := 40 }, { market := "Raydium", percent := 60 }]
    (RoutePlanWithMetadata.mk ["Meteora"] [(0, 100)])
    [{ market := "Meteora", percent := 100 }] (by decide)
  exact ⟨h.1, h.2.2.2.1⟩

/-- C5: for every `QuoteRequest`, once header building succeeds, `quote`
issues exactly one GET request to `{base}/quote` whose query parameters
are the shaped internal fields followed by the request's `quote_args`
entries, each `quote_args` key/value appearing under its original key
unmodified. -/
theorem claim_C5_quote_request_shape
    (c : JupiterSwapApiClient) (hs : List (String × String))
    (hok : buildHeaders c.api_key = .ok hs)
    (qr : QuoteRequest) (net : HttpRequest → SendOutcome)
    (decQ : String → Option QuoteResponse) :
    ∃ req : HttpRequest,
      (c.quote qr net decQ).2 = [req] ∧
      req.method = .get ∧
      req.url = c.base_path ++ "/quote" ∧
      req.query = internalQuoteQuery (InternalQuoteRequest.from qr)
        ++ qr.quote_args ∧
      req.body = none ∧
      ∀ kv ∈ qr.quote_args, kv ∈ req.query := by
  refine ⟨⟨.get, c.base_path ++ "/quote",
    internalQuoteQuery (InternalQuoteRequest.from qr) ++ qr.quote_args,
    none, hs⟩, ?_, rfl, rfl, rfl, rfl, ?_⟩
  · simp only [JupiterSwapApiClient.quote, hok]
    split <;> rfl
  · intro kv hkv
    exact List.mem_append_right _ hkv

/-- Witness for C5: the one GET request `quote` issues for the concrete
fixture request carries its `extraKey` argument unmodified. -/
theorem claim_C5_witness :
    ∃ req : HttpRequest,
      (exampleClient.quote exampleQuoteRequest
        (fun _ => .ok ⟨200, some "{}"⟩) (fun _ => none)).2 = [req] ∧
      req.method = .get ∧
      req.url = "https://quote-api.jup.ag/v6" ++ "/quote" ∧
      req.query = internalQuoteQuery
          (InternalQuoteRequest.from exampleQuoteRequest)
        ++ exampleQuoteRequest.quote_args ∧
      req.body = none ∧
      ∀ kv ∈ exampleQuoteRequest.quote_args, kv ∈ req.query :=
  claim_C5_quote_request_shape exampleClient [] (by rfl) exampleQuoteRequest
    (fun _ => .ok ⟨200, some "{}"⟩) (fun _ => none)

/-- C7: the swap-instructions wire→caller-facing conversion preserves
instruction count and relative order, `swap_instructions` returns exactly
that conversion of the decoded wire value, and for `quote` and `swap` the
decoded value is returned as-is with no conversion step. -/
theorem claim_C7_swap_instructions_normalization
    (r : SwapInstructionsResponseInternal)
    (c : JupiterSwapApiClient) (hkey : c.api_key = none)
    (resp : HttpResponse) (hst : statusIsSuccess resp.status = true)
    (b : String) (hb : resp.body = some b)
    (qr : QuoteRequest) (sr : SwapRequest)
    (extra : Option (List (String × String)))
    (decQ : String → Option QuoteResponse)
    (decS : String → Option SwapResponse)
    (decI : String → Option SwapInstructionsResponseInternal)
    (v : QuoteResponse) (w : SwapResponse) :
    (r.into.instructions.length = r.instructions.length ∧
      ∀ n, r.into.instructions.get? n
        = (r.instructions.get? n).map InstructionInternal.into) ∧
    (decI b = some r →
      (c.swap_instructions sr (fun _ => .ok resp) decI).1 = .ok r.into) ∧
    (decQ b = some v →
      (c.quote qr (fun _ => .ok resp) decQ).1 = .ok v) ∧
    (decS b = some w →
      (c.swap sr extra (fun _ => .ok resp) decS).1 = .ok w) := by
  have hok : buildHeaders c.api_key = .ok [] := by
    simp [buildHeaders, hkey]
  refine ⟨⟨?_, ?_⟩, ?_, ?_, ?_⟩
  · simp [SwapInstructionsResponseInternal.into]
  · intro n
    simp [SwapInstructionsResponseInternal.into, List.get?_eq_getElem?,
      List.getElem?_map]
  · intro hdec
    simp [JupiterSwapApiClient.swap_instructions, hok,
      check_status_code_and_deserialize, check_is_success, hst, hb, hdec]
  · intro hdec
    simp [JupiterSwapApiClient.quote, hok,
      check_status_code_and_deserialize, check_is_success, hst, hb, hdec]
  · intro hdec
    simp [JupiterSwapApiClient.swap, hok,
      check_status_code_and_deserialize, check_is_success, hst, hb, hdec]

/-- A concrete wire-level swap-instructions response with two
instructions in a known order. -/
def exampleInstructionsInternal : SwapInstructionsResponseInternal where
  instructions :=
    [{ program_id := "ComputeBudget111", accounts := [], data := "AQID" },
     { program_id := "JUP6LkbZbjS1jKKw", accounts := ["a", "b"], data := "BAUG" }]
  address_lookup_table_addresses := ["lut1111"]

/-- Witness for C7: for the concrete two-instruction fixture,
`swap_instructions` returns its conversion, with both instructions in
order, and `quote` returns the decoded value unchanged. -/
theorem claim_C7_witness :
    exampleInstructionsInternal.into.instructions.length
      = exampleInstructionsInternal.instructions.length ∧
    (exampleClient.swap_instructions exampleSwapRequest
        (fun _ => .ok ⟨200, some "{}"⟩) (fun _ => some exampleInstructionsInternal)).1
      = .ok exampleInstructionsInternal.into ∧
    (exampleClient.quote exampleQuoteRequest
        (fun _ => .ok ⟨200, some "{}"⟩) (fun _ => some exampleQuoteResponse)).1
      = .ok exampleQuoteResponse := by
  have h := claim_C7_swap_instructions_normalization exampleInstructionsInternal
    exampleClient (by rfl) ⟨200, some "{}"⟩ (by decide) "{}" (by rfl)
    exampleQuoteRequest exampleSwapRequest none
    (fun _ => some exampleQuoteResponse)
    (fun _ => none)
    (fun _ => some exampleInstructionsInternal)
    exampleQuoteResponse
    { swap_transaction := "", last_valid_block_height := 0 }
  exact ⟨h.1.1, h.2.1 rfl, h.2.2.1 rfl⟩

/-- C8: for every `SwapRequest`, once header building succeeds, `swap`
issues exactly one POST to `{base}/swap` whose body is the swap request
and whose query string is the caller-supplied per-call `extra_args`, and
`swap_instructions` issues exactly one POST to `{base}/swap-instructions`
with the swap request as body and no query arguments. -/
theorem claim_C8_swap_request_shape
    (c : JupiterSwapApiClient) (hs : List (String × String))
    (hok : buildHeaders c.api_key = .ok hs)
    (sr : SwapRequest) (extra : Option (List (String × String)))
    (net : HttpRequest → SendOutcome)
    (decS : String → Option SwapResponse)
    (decI : String → Option SwapInstructionsResponseInternal) :
    (∃ req : HttpRequest,
      (c.swap sr extra net decS).2 = [req] ∧
      req.method = .post ∧
      req.url = c.base_path ++ "/swap" ∧
      req.body = some sr ∧
      req.query = extra.getD []) ∧
    (∃ req : HttpRequest,
      (c.swap_instructions sr net decI).2 = [req] ∧
      req.method = .post ∧
      req.url = c.base_path ++ "/swap-instructions" ∧
      req.body = some sr ∧
      req.query = []) := by
  constructor
  · refine ⟨⟨.post, c.base_path ++ "/swap", extra.getD [], some sr, hs⟩,
      ?_, rfl, rfl, rfl, rfl⟩
    simp only [JupiterSwapApiClient.swap, hok]
    split <;> rfl
  · refine ⟨⟨.post, c.base_path ++ "/swap-instructions", [], some sr, hs⟩,
      ?_, rfl, rfl, rfl, rfl⟩
    simp only [JupiterSwapApiClient.swap_instructions, hok]
    split <;> rfl

/-- Witness for C8: the one POST each of `swap` and `swap_instructions`
issues for the concrete fixture request has the documented URL, body and
query. -/
theorem claim_C8_witness :
    (∃ req : HttpRequest,
      (exampleClient.swap exampleSwapRequest
        (some [("asLegacyTransaction", "true")])
        (fun _ => .ok ⟨200, some "{}"⟩) (fun _ => none)).2 = [req] ∧
      req.method = .post ∧
      req.url = "https://quote-api.jup.ag/v6" ++ "/swap" ∧
      req.body = some exampleSwapRequest ∧
      req.query = (some [("asLegacyTransaction", "true")]).getD []) ∧
    (∃ req : HttpRequest,
      (exampleClient.swap_instructions exampleSwapRequest
        (fun _ => .ok ⟨200, some "{}"⟩) (fun _ => none)).2 = [req] ∧
      req.method = .post ∧
      req.url = "https://quote-api.jup.ag/v6" ++ "/swap-instructions" ∧
      req.body = some exampleSwapRequest ∧
      req.query = []) :=
  claim_C8_swap_request_shape exampleClient [] (by rfl) exampleSwapRequest
    (some [("asLegacyTransaction", "true")])
    (fun _ => .ok ⟨200, some "{}"⟩) (fun _ => none) (fun _ => none)

/-- C9: for every operation, a configured valid API key is sent as exactly
one `x-api-key` header with the key as its value on the one issued
request; with no key configured, the issued request carries no headers at
all. -/
theorem claim_C9_api_key_header
    (c : JupiterSwapApiClient) (qr : QuoteRequest) (sr : SwapRequest)
    (extra : Option (List (String × String)))
    (net : HttpRequest → SendOutcome)
    (decQ : String → Option QuoteResponse)
    (decS : String → Option SwapResponse)
    (decI : String → Option SwapInstructionsResponseInternal) :
    (∀ k, c.api_key = some k → isValidHeaderValue k = true →
      ((c.quote qr net decQ).2.map HttpRequest.headers
          = [[("x-api-key", k)]] ∧
        (c.swap sr extra net decS).2.map HttpRequest.headers
          = [[("x-api-key", k)]] ∧
        (c.swap_instructions sr net decI).2.map HttpRequest.headers
          = [[("x-api-key", k)]])) ∧
    (c.api_key = none →
      ((c.quote qr net decQ).2.map HttpRequest.headers = [[]] ∧
        (c.swap sr extra net decS).2.map HttpRequest.headers = [[]] ∧
        (c.swap_instructions sr net decI).2.map HttpRequest.headers = [[]])) := by
  constructor
  · intro k hk hvalid
    have hok : buildHeaders c.api_key = .ok [("x-api-key", k)] := by
      simp [buildHeaders, hk, hvalid]
    refine ⟨?_, ?_, ?_⟩
    · simp only [JupiterSwapApiClient.quote, hok]
      split <;> rfl
    · simp only [JupiterSwapApiClient.swap, hok]
      split <;> rfl
    · simp only [JupiterSwapApiClient.swap_instructions, hok]
      split <;> rfl
  · intro hk
    have hok : buildHeaders c.api_key = .ok [] := by
      simp [buildHeaders, hk]
    refine ⟨?_, ?_, ?_⟩
    · simp only [JupiterSwapApiClient.quote, hok]
      split <;> rfl
    · simp only [JupiterSwapApiClient.swap, hok]
      split <;> rfl
    · simp only [JupiterSwapApiClient.swap_instructions, hok]
      split <;> rfl

/-- Witness for C9: with a concrete valid key, `quote` sends exactly the
one `x-api-key` header; with no key, the quote request carries no
headers. -/
theorem claim_C9_witness :
    ((JupiterSwapApiClient.new "https://quote-api.jup.ag/v6"
        (some "secret-key")).quote exampleQuoteRequest
        (fun _ => .ok ⟨200, some "{}"⟩) (fun _ => none)).2.map
      HttpRequest.headers = [[("x-api-key", "secret-key")]] ∧
    (exampleClient.quote exampleQuoteRequest
        (fun _ => .ok ⟨200, some "{}"⟩) (fun _ => none)).2.map
      HttpRequest.headers = [[]] := by
  have h1 := claim_C9_api_key_header
    (JupiterSwapApiClient.new "https://quote-api.jup.ag/v6" (some "secret-key"))
    exampleQuoteRequest exampleSwapRequest none
    (fun _ => .ok ⟨200, some "{}"⟩) (fun _ => none) (fun _ => none)
    (fun _ => none)
  have h2 := claim_C9_api_key_header exampleClient
    exampleQuoteRequest exampleSwapRequest none
    (fun _ => .ok ⟨200, some "{}"⟩) (fun _ => none) (fun _ => none)
    (fun _ => none)
  exact ⟨(h1.1 "secret-key" rfl (by decide)).1, (h2.2 rfl).1⟩

/-- C10: constructing the client stores the base path and API key
unchanged for every input, valid header value or not; an invalid key is
only rejected — with `InvalidHeader` — when an operation is invoked. -/
theorem claim_C10_construction_never_validates
    (b : String) (k : Option String) :
    (JupiterSwapApiClient.new b k).base_path = b ∧
    (JupiterSwapApiClient.new b k).api_key = k ∧
    (∀ s, k = some s → isValidHeaderValue s = false →
      ∀ (qr : QuoteRequest) (net : HttpRequest → SendOutcome)
        (decQ : String → Option QuoteResponse),
        (JupiterSwapApiClient.new b k).quote qr net decQ
          = (.error .InvalidHeader, [])) := by
  refine ⟨rfl, rfl, ?_⟩
  intro s hk hbad qr net decQ
  exact quote_header_error _ _
    (buildHeaders_invalid _ s (by simp [JupiterSwapApiClient.new, hk]) hbad)
    qr net decQ

/-- Witness for C10: a client built with a newline-carrying API key stores
it verbatim, and the key is first rejected when `quote` runs. -/
theorem claim_C10_witness :
    (JupiterSwapApiClient.new "https://quote-api.jup.ag/v6"
        (some "key\nwith-newline")).base_path = "https://quote-api.jup.ag/v6" ∧
    (JupiterSwapApiClient.new "https://quote-api.jup.ag/v6"
        (some "key\nwith-newline")).api_key = some "key\nwith-newline" ∧
    (JupiterSwapApiClient.new "https://quote-api.jup.ag/v6"
        (some "key\nwith-newline")).quote exampleQuoteRequest
        (fun _ => .ok ⟨200, some "{}"⟩) (fun _ => none)
      = (.error .InvalidHeader, []) := by
  have h := claim_C10_construction_never_validates
    "https://quote-api.jup.ag/v6" (some "key\nwith-newline")
  exact ⟨h.1, h.2.1, h.2.2 "key\nwith-newline" rfl (by decide)
    exampleQuoteRequest (fun _ => .ok ⟨200, some "{}"⟩) (fun _ => none)⟩

end JupiterClient
